import Mathlib

/-!
Shallow embedding of the content-repurposer service
(`src/modules/repurposer.py` and the generate-button handler of
`src/main.py`).

The Model Backend (the Gemini LLM) is modelled as an abstract function
`llm : String → String` from rendered prompt to completion text, and the
JSON extraction step performed by the LangChain output parser on the raw
completion is modelled as an abstract function
`jsonOf : String → Option Json`; both live in an `Env` record together
with the library-generated `format_instructions` text that is partially
applied into the tweet prompt.  Every call issued to the backend is
recorded in a list, so "number of Model Backend calls" is the length of
that list.
-/

namespace ContentRepurposer

/-- A JSON value, as produced by deserializing the model response text.
Used to model the pydantic validation performed by
`PydanticOutputParser(pydantic_object=TweetOutput)`. -/
inductive Json where
  | null : Json
  | bool (b : Bool) : Json
  | num (n : Int) : Json
  | str (s : String) : Json
  | arr (elems : List Json) : Json
  | obj (fields : List (String × Json)) : Json

/-- `class TweetOutput(BaseModel): tweets: List[str]` from
`src/modules/repurposer.py` lines 33-34.  The `Field(description=...)`
only attaches a description used in the format instructions sent to the
model; it imposes no validation constraint. -/
structure TweetOutput where
  tweets : List String
deriving DecidableEq

/-- Pydantic validation of a JSON array against `List[str]`: every
element must be a string; otherwise validation fails. -/
def decodeStringList : List Json → Option (List String)
  | [] => some []
  | Json.str s :: rest => (decodeStringList rest).map (s :: ·)
  | _ => none

/-- Pydantic validation of a deserialized JSON value against the
`TweetOutput` model: the value must be an object carrying a `tweets`
field holding a list of strings.  Extra fields are ignored (pydantic
default); no length bound is checked anywhere. -/
def decodeTweetOutput : Json → Except String TweetOutput
  | Json.obj fields =>
    match fields.lookup "tweets" with
    | some (Json.arr xs) =>
      match decodeStringList xs with
      | some ts => .ok ⟨ts⟩
      | none => .error "validation error: tweets entries must be strings"
    | some _ => .error "validation error: tweets must be a list"
    | none => .error "validation error: field tweets is required"
  | _ => .error "validation error: expected a JSON object"

/-- `self.tweet_parser.parse(text)`: extract/deserialize JSON from the
raw completion text (modelled by the abstract `jsonOf`), then validate
it against `TweetOutput`.  A text with no parseable JSON raises an
output-parser exception, modelled as an error. -/
def parseTweetOutput (jsonOf : String → Option Json) (text : String) :
    Except String TweetOutput :=
  match jsonOf text with
  | none => .error "output parser exception: invalid json"
  | some j => decodeTweetOutput j

/-- One item of a prompt template: literal text or a named placeholder,
mirroring how `PromptTemplate` splits an f-string template into literal
segments and input variables. -/
inductive TItem where
  | lit (s : String) : TItem
  | var (v : String) : TItem

/-- Render a template by substituting every placeholder with its value
under the assignment `σ` (substituted values are not re-scanned, exactly
like Python string formatting). -/
def renderTemplate (σ : String → String) : List TItem → String
  | [] => ""
  | TItem.lit s :: rest => s ++ renderTemplate σ rest
  | TItem.var v :: rest => σ v ++ renderTemplate σ rest

/-- The named placeholders appearing in a template string, in order. -/
def templateVars : List TItem → List String
  | [] => []
  | TItem.lit _ :: rest => templateVars rest
  | TItem.var v :: rest => v :: templateVars rest

/-- First literal segment of the blog template. -/
def blogL1 : String :=
  "You are an expert content writer. Your task is to transform the given original content into a blog post.\n\nOriginal Content:\n\""

/-- Literal segment of the blog template between the content and the
audience placeholders. -/
def blogL2 : String := "\"\n\nTarget Audience: "

/-- Literal segment of the blog template between the audience and the
tone placeholders. -/
def blogL3 : String := "\nTone: "

/-- Literal segment of the blog template between the tone and the
length placeholders. -/
def blogL4 : String := "\nDesired Length: "

/-- Final literal segment of the blog template. -/
def blogL5 : String :=
  " words (approximate)\n\nPlease write a compelling and well-structured blog post based on the above. Ensure it flows naturally and engages the specified audience. Include an introduction, main body with relevant points, and a conclusion.\n"

/-- The blog-post template string of `self.blog_prompt`
(`src/modules/repurposer.py` lines 43-53), split at its placeholders. -/
def blogTemplate : List TItem :=
  [TItem.lit blogL1,
   TItem.var "original_content",
   TItem.lit blogL2,
   TItem.var "target_audience",
   TItem.lit blogL3,
   TItem.var "tone",
   TItem.lit blogL4,
   TItem.var "length",
   TItem.lit blogL5]

/-- The tweet-thread template string of `self.tweet_prompt`
(`src/modules/repurposer.py` lines 60-70), split at its placeholders.
Note that it references a third placeholder, `format_instructions`,
which is not listed among its declared `input_variables`; it is bound
later by `self.tweet_prompt.partial(...)`. -/
def tweetTemplate : List TItem :=
  [TItem.lit "You are a social media expert. Your task is to convert the following content into a thread of 3-5 concise tweets. Each tweet must be under 280 characters. Use relevant hashtags and emojis where appropriate to maximize engagement.\n\nOriginal Content:\n\"",
   TItem.var "original_content",
   TItem.lit "\"\n\nTone: ",
   TItem.var "tone",
   TItem.lit "\n\n",
   TItem.var "format_instructions",
   TItem.lit "\n\nPlease provide the tweets in a numbered list format.\n"]

/-- The pair returned by the tweet-thread branch: the single rendered
prompt sent to the backend, and either the parsed tweets joined with a
blank-line separator or the propagated parse failure
(`src/modules/repurposer.py` lines 144-147). -/
def tweetBranchResult (jsonOf : String → Option Json) (prompt response : String) :
    List String × Except String String :=
  ([prompt],
    match parseTweetOutput jsonOf response with
    | .ok parsed => .ok (String.intercalate "\n\n" parsed.tweets)
    | .error e => .error e)

/-- The Instagram-carousel template string of `self.carousel_prompt`
(`src/modules/repurposer.py` lines 81-108), split at its placeholders. -/
def carouselTemplate : List TItem :=
  [TItem.lit "You are an Instagram content creator. Your task is to generate text for an Instagram carousel post based on the given content. The carousel should have ",
   TItem.var "num_slides",
   TItem.lit " slides.\n\nFor each slide, provide:\n- A concise, engaging headline/title.\n- 2-3 bullet points or short sentences summarizing a key idea.\n- Relevant emojis.\n- A call to action for the last slide.\n\nOriginal Content:\n\"",
   TItem.var "original_content",
   TItem.lit "\"\n\nTone: ",
   TItem.var "tone",
   TItem.lit "\n\nPlease format the output clearly, indicating each slide.\nExample format:\n--- Slide 1 ---\nHeadline: [Headline]\n- Point 1\n- Point 2\n✨ Emoji\n\n--- Slide 2 ---\nHeadline: [Headline]\n- Point 1\n- Point 2\n🚀 Emoji\n...\n"]

/-- `input_variables=["original_content", "target_audience", "tone", "length"]`
declared for `self.blog_prompt`. -/
def blogInputVariables : List String :=
  ["original_content", "target_audience", "tone", "length"]

/-- `input_variables=["original_content", "tone"]` declared for
`self.tweet_prompt`. -/
def tweetInputVariables : List String :=
  ["original_content", "tone"]

/-- The variable bound by `self.tweet_prompt.partial(format_instructions=...)`
before the tweet chain is built. -/
def tweetPartialVariables : List String :=
  ["format_instructions"]

/-- `input_variables=["original_content", "tone", "num_slides"]` declared
for `self.carousel_prompt`. -/
def carouselInputVariables : List String :=
  ["original_content", "tone", "num_slides"]

/-- The keyword arguments `repurpose_content` reads via `kwargs.get`;
`none` models an omitted key. -/
structure Kwargs where
  target_audience : Option String := none
  tone : Option String := none
  length : Option Int := none
  num_slides : Option Int := none

/-- The external collaborators of one `Repurposer` instance: the Model
Backend completion function, the JSON extraction step of the output
parser, and the library-generated format-instructions text partially
applied into the tweet prompt. -/
structure Env where
  llm : String → String
  jsonOf : String → Option Json
  formatInstructions : String

/-- The rendered blog prompt: `blogTemplate` with all four placeholders
substituted. -/
def blogPrompt (content audience tone lengthStr : String) : String :=
  renderTemplate
    (fun v =>
      if v = "original_content" then content
      else if v = "target_audience" then audience
      else if v = "tone" then tone
      else if v = "length" then lengthStr
      else "")
    blogTemplate

/-- The rendered tweet prompt: `tweetTemplate` with the two input
variables and the partial `format_instructions` substituted. -/
def tweetPrompt (fi content tone : String) : String :=
  renderTemplate
    (fun v =>
      if v = "original_content" then content
      else if v = "tone" then tone
      else if v = "format_instructions" then fi
      else "")
    tweetTemplate

/-- The rendered carousel prompt: `carouselTemplate` with its three
placeholders substituted. -/
def carouselPrompt (content tone numSlidesStr : String) : String :=
  renderTemplate
    (fun v =>
      if v = "original_content" then content
      else if v = "tone" then tone
      else if v = "num_slides" then numSlidesStr
      else "")
    carouselTemplate

/-- The sentinel string returned by the final `else` branch of
`repurpose_content` (`src/modules/repurposer.py` line 159). -/
def invalidOptionMessage : String := "Invalid repurposing option selected."

/-- `Repurposer.repurpose_content(content, option, **kwargs)`
(`src/modules/repurposer.py` lines 114-159).  Returns the list of
prompts sent to the Model Backend (each `chain.invoke` issues exactly
one completion call with the rendered prompt) together with the returned
text, or the propagated output-parser exception for the tweet branch. -/
def repurposeContent (env : Env) (content option : String) (kw : Kwargs) :
    List String × Except String String :=
  if option = "Blog Post" then
    let target_audience := kw.target_audience.getD "general audience"
    let tone := kw.tone.getD "informative"
    let len := kw.length.getD 500
    let prompt := blogPrompt content target_audience tone (toString len)
    ([prompt], .ok (env.llm prompt))
  else if option = "Tweet Thread" then
    let tone := kw.tone.getD "engaging"
    let prompt := tweetPrompt env.formatInstructions content tone
    tweetBranchResult env.jsonOf prompt (env.llm prompt)
  else if option = "Instagram Carousel" then
    let tone := kw.tone.getD "visual and inspiring"
    let numSlides := kw.num_slides.getD 5
    let prompt := carouselPrompt content tone (toString numSlides)
    ([prompt], .ok (env.llm prompt))
  else
    ([], .ok invalidOptionMessage)

/-- The error message raised by `Repurposer.__init__` when the
`GOOGLE_API_KEY` environment variable is unset or empty
(`src/modules/repurposer.py` lines 24-26). -/
def missingKeyMessage : String :=
  "GOOGLE_API_KEY environment variable not set. Please get your API key from Google AI Studio and set it."

/-- `Repurposer.__init__` as far as credentials are concerned:
`os.getenv("GOOGLE_API_KEY")` yields `none` when the variable is absent;
Python falsiness also rejects the empty string. -/
def repurposerInit (googleApiKey : Option String) : Except String Unit :=
  match googleApiKey with
  | none => .error missingKeyMessage
  | some k => if k = "" then .error missingKeyMessage else .ok ()

/-- Whitespace in the sense of Python `str.strip()` (restricted to the
ASCII whitespace characters: space, tab, newline, carriage return,
vertical tab, form feed). -/
def isPyWhitespace (c : Char) : Bool :=
  c == ' ' || c == '\t' || c == '\n' || c == '\r' || c == '\x0b' || c == '\x0c'

/-- Python `content.strip()`: remove leading and trailing whitespace. -/
def pyStrip (s : String) : String :=
  String.mk (((s.data.dropWhile isPyWhitespace).reverse.dropWhile
    isPyWhitespace).reverse)

/-- The outcome shown by the generate-button handler of `src/main.py`:
the empty-content warning, the coming-soon info message, the repurposed
output text, or the error display of the `except` branch. -/
inductive HandlerOutcome where
  | emptyContentWarning : HandlerOutcome
  | comingSoonInfo : HandlerOutcome
  | output (text : String) : HandlerOutcome
  | errorShown (message : String) : HandlerOutcome
deriving DecidableEq

/-- The two placeholder entries of the format radio widget
(`src/main.py` lines 53 and 94). -/
def comingSoonOptions : List String :=
  ["LinkedIn Post (Coming Soon)", "Email Newsletter (Coming Soon)"]

/-- The generate-button handler (`src/main.py` lines 91-111): reject
blank content, then intercept the two coming-soon placeholders, and
otherwise call `repurpose_content`, displaying its result or catching
its exception. -/
def generateButtonHandler (env : Env) (content option : String)
    (params : Kwargs) : List String × HandlerOutcome :=
  if pyStrip content = "" then ([], HandlerOutcome.emptyContentWarning)
  else if option ∈ comingSoonOptions then ([], HandlerOutcome.comingSoonInfo)
  else
    match repurposeContent env content option params with
    | (calls, .ok text) => (calls, HandlerOutcome.output text)
    | (calls, .error e) => (calls, HandlerOutcome.errorShown e)

/-- substring containment, used to state which fragments a rendered
prompt contains. -/
def ContainsSubstr (s t : String) : Prop := ∃ p q, s = p ++ t ++ q

/-- A concrete environment whose backend returns the empty completion
and whose output parser finds no JSON; used for inputs on which the
result does not depend on the backend. -/
def envBlank : Env :=
  { llm := fun _ => "", jsonOf := fun _ => none, formatInstructions := "" }

/-! ### Helper lemmas -/

lemma string_append_assoc (a b c : String) : a ++ b ++ c = a ++ (b ++ c) := by
  apply String.ext
  simp [String.data_append, List.append_assoc]

lemma decodeStringList_map (ts : List String) :
    decodeStringList (ts.map Json.str) = some ts := by
  induction ts with
  | nil => rfl
  | cons t rest ih => simp [decodeStringList, ih]

lemma decodeTweetOutput_strings (ts : List String) :
    decodeTweetOutput (Json.obj [("tweets", Json.arr (ts.map Json.str))]) =
      Except.ok ⟨ts⟩ := by
  simp [decodeTweetOutput, List.lookup, decodeStringList_map]

/-- The three tweets of the spec scenario (section 8): a well-formed
3-entry structured response, each entry at most 280 characters. -/
def scenarioTweets : List String :=
  ["1/ AI is transforming industries, from healthcare to finance. #AI",
   "2/ Machine learning lets systems learn from data without explicit programming.",
   "3/ Responsible AI development is crucial. Follow for more!"]

/-- A mock environment whose output parser always yields the 3-entry
scenario list. -/
def envScenario : Env :=
  { llm := fun _ => "mock structured response",
    jsonOf := fun _ => some (Json.obj [("tweets", Json.arr (scenarioTweets.map Json.str))]),
    formatInstructions := "" }

/-- A mock environment whose backend always returns a fixed non-empty
completion. -/
def envFixed : Env :=
  { llm := fun _ => "RESPONSE TEXT", jsonOf := fun _ => none,
    formatInstructions := "" }

/-! ### Claim theorems -/

/-- C4: for the TweetThread format, for every well-formed structured
model response containing N entries each at most 280 characters,
validation returns exactly those entries and `repurpose_content` returns
them joined with a blank-line separator in the original list order, with
no entry added, dropped, reordered or modified, issuing exactly the one
rendered tweet prompt to the backend. -/
theorem tweet_thread_preserves_entries (env : Env) (content : String)
    (kw : Kwargs) (ts : List String)
    (hresp : env.jsonOf (env.llm (tweetPrompt env.formatInstructions content
        (kw.tone.getD "engaging"))) =
      some (Json.obj [("tweets", Json.arr (ts.map Json.str))]))
    (hlen : ∀ t ∈ ts, t.length ≤ 280) :
    repurposeContent env content "Tweet Thread" kw =
      ([tweetPrompt env.formatInstructions content (kw.tone.getD "engaging")],
        Except.ok (String.intercalate "\n\n" ts)) := by
  simp [repurposeContent, tweetBranchResult, parseTweetOutput, hresp,
    decodeTweetOutput_strings]

/-- Witness for C4: the spec scenario, instantiated with the mock
3-entry structured response. -/
theorem tweet_thread_preserves_entries_witness :
    repurposeContent envScenario "AI is transforming industries."
        "Tweet Thread" { tone := some "informative" } =
      ([tweetPrompt "" "AI is transforming industries." "informative"],
        Except.ok (String.intercalate "\n\n" scenarioTweets)) :=
  tweet_thread_preserves_entries envScenario "AI is transforming industries."
    { tone := some "informative" } scenarioTweets rfl (by decide)

/-- C5: for the BlogPost and InstagramCarousel formats the
output-validation step is the identity: for every non-empty string
returned by the Model Backend, `repurpose_content` returns exactly that
string, character for character. -/
theorem free_text_identity (env : Env) (content : String) (kw : Kwargs)
    (hblog : env.llm (blogPrompt content (kw.target_audience.getD "general audience")
      (kw.tone.getD "informative") (toString (kw.length.getD 500))) ≠ "")
    (hcar : env.llm (carouselPrompt content (kw.tone.getD "visual and inspiring")
      (toString (kw.num_slides.getD 5))) ≠ "") :
    (repurposeContent env content "Blog Post" kw).2 =
      Except.ok (env.llm (blogPrompt content (kw.target_audience.getD "general audience")
        (kw.tone.getD "informative") (toString (kw.length.getD 500)))) ∧
    (repurposeContent env content "Instagram Carousel" kw).2 =
      Except.ok (env.llm (carouselPrompt content (kw.tone.getD "visual and inspiring")
        (toString (kw.num_slides.getD 5)))) := by
  constructor <;> simp [repurposeContent]

/-- Witness for C5: the fixed-completion backend on concrete content. -/
theorem free_text_identity_witness :
    (repurposeContent envFixed "Some article." "Blog Post" {}).2 =
      Except.ok "RESPONSE TEXT" ∧
    (repurposeContent envFixed "Some article." "Instagram Carousel" {}).2 =
      Except.ok "RESPONSE TEXT" :=
  free_text_identity envFixed "Some article." {} (by decide) (by decide)

/-- C7: for every invocation with non-empty content and a supported
format, exactly one request is issued to the Model Backend — never zero,
never more than one — with no retry even when the tweet parse fails. -/
theorem exactly_one_backend_call (env : Env) (content option : String)
    (kw : Kwargs) (hcontent : pyStrip content ≠ "")
    (hopt : option = "Blog Post" ∨ option = "Tweet Thread" ∨
      option = "Instagram Carousel") :
    (repurposeContent env content option kw).1.length = 1 := by
  rcases hopt with h | h | h <;> subst h <;>
    simp [repurposeContent, tweetBranchResult]

/-- Witness for C7: a concrete invocation whose parse even fails, still
issuing exactly one call. -/
theorem exactly_one_backend_call_witness :
    (repurposeContent envBlank "Some article." "Tweet Thread" {}).1.length = 1 :=
  exactly_one_backend_call envBlank "Some article." "Tweet Thread" {}
    (by decide) (Or.inr (Or.inl rfl))

/-- C6: for the BlogPost format invoked with non-empty content and no
target_audience, tone or length parameters, the single rendered prompt
sent to the Model Backend contains the substrings "general audience",
"informative" and "500" (the documented per-format defaults), and
explicitly supplied values override these defaults. -/
theorem blog_prompt_defaults (env : Env) (content : String) :
    (repurposeContent env content "Blog Post" {}).1 =
        [blogPrompt content "general audience" "informative" "500"] ∧
    ContainsSubstr (blogPrompt content "general audience" "informative" "500")
        "general audience" ∧
    ContainsSubstr (blogPrompt content "general audience" "informative" "500")
        "informative" ∧
    ContainsSubstr (blogPrompt content "general audience" "informative" "500")
        "500" ∧
    (∀ (a t : String) (l : Int) (kw : Kwargs),
        kw.target_audience = some a → kw.tone = some t → kw.length = some l →
        (repurposeContent env content "Blog Post" kw).1 =
          [blogPrompt content a t (toString l)]) := by
  refine ⟨by simp [repurposeContent]; rfl, ?_, ?_, ?_, ?_⟩
  · exact ⟨blogL1 ++ (content ++ blogL2),
      blogL3 ++ ("informative" ++ (blogL4 ++ ("500" ++ blogL5))),
      by simp [blogPrompt, renderTemplate, blogTemplate, string_append_assoc]⟩
  · exact ⟨blogL1 ++ (content ++ (blogL2 ++ ("general audience" ++ blogL3))),
      blogL4 ++ ("500" ++ blogL5),
      by simp [blogPrompt, renderTemplate, blogTemplate, string_append_assoc]⟩
  · exact ⟨blogL1 ++ (content ++ (blogL2 ++ ("general audience" ++
        (blogL3 ++ ("informative" ++ blogL4))))), blogL5,
      by simp [blogPrompt, renderTemplate, blogTemplate, string_append_assoc]⟩
  · intro a t l kw ha ht hl
    simp [repurposeContent, ha, ht, hl]

/-- Witness for C6: concrete content, once with defaults and once with
explicit overrides. -/
theorem blog_prompt_defaults_witness :
    (repurposeContent envFixed "Hello world" "Blog Post" {}).1 =
        [blogPrompt "Hello world" "general audience" "informative" "500"] ∧
    (repurposeContent envFixed "Hello world" "Blog Post"
        { target_audience := some "developers", tone := some "casual",
          length := some 250 }).1 =
      [blogPrompt "Hello world" "developers" "casual" "250"] :=
  ⟨(blog_prompt_defaults envFixed "Hello world").1,
    (blog_prompt_defaults envFixed "Hello world").2.2.2.2 "developers" "casual"
      250 { target_audience := some "developers", tone := some "casual",
            length := some 250 } rfl rfl rfl⟩

/-- C10: with no tone supplied, the tone placeholder of the tweet prompt
resolves to "engaging" and that of the carousel prompt to
"visual and inspiring". -/
theorem tweet_carousel_tone_defaults (env : Env) (content : String)
    (kw : Kwargs) (htone : kw.tone = none) :
    (repurposeContent env content "Tweet Thread" kw).1 =
        [tweetPrompt env.formatInstructions content "engaging"] ∧
    (repurposeContent env content "Instagram Carousel" kw).1 =
        [carouselPrompt content "visual and inspiring"
          (toString (kw.num_slides.getD 5))] := by
  constructor <;> simp [repurposeContent, tweetBranchResult, htone]

/-- Witness for C10: concrete content with all parameters omitted. -/
theorem tweet_carousel_tone_defaults_witness :
    (repurposeContent envBlank "Hello" "Tweet Thread" {}).1 =
        [tweetPrompt "" "Hello" "engaging"] ∧
    (repurposeContent envBlank "Hello" "Instagram Carousel" {}).1 =
        [carouselPrompt "Hello" "visual and inspiring" "5"] :=
  tweet_carousel_tone_defaults envBlank "Hello" {} rfl

/-- A 281-character tweet entry. -/
def longTweet : String := String.mk (List.replicate 281 'a')

/-- A mock environment whose output parser yields a single tweet of 281
characters. -/
def envLongTweet : Env :=
  { llm := fun _ => "mock response",
    jsonOf := fun _ => some (Json.obj [("tweets", Json.arr [Json.str longTweet])]),
    formatInstructions := "" }

/-- Counterexample to C1 as stated: `repurpose_content` itself performs
no emptiness check — invoked directly with empty content and the Blog
Post format it issues one Model Backend call and returns the backend
completion instead of failing. -/
theorem empty_content_reaches_backend_ce :
    (repurposeContent envBlank "" "Blog Post" {}).1.length = 1 ∧
    (repurposeContent envBlank "" "Blog Post" {}).2 = Except.ok "" := by
  constructor <;> rfl

/-- C1 (amended): empty or whitespace-only content is rejected by the
generate-button handler before `repurpose_content` runs — the handler
shows the empty-content warning (the code form of EmptyContentError) and
issues no Model Backend call, for every format and parameter set. -/
theorem blank_content_rejected_by_handler (env : Env)
    (content option : String) (params : Kwargs)
    (hblank : pyStrip content = "") :
    generateButtonHandler env content option params =
      ([], HandlerOutcome.emptyContentWarning) := by
  simp [generateButtonHandler, hblank]

/-- Witness for the amended C1: whitespace-only content. -/
theorem blank_content_rejected_by_handler_witness :
    generateButtonHandler envBlank "  \n  " "Blog Post" {} =
      ([], HandlerOutcome.emptyContentWarning) :=
  blank_content_rejected_by_handler envBlank "  \n  " "Blog Post" {} (by decide)

/-- Counterexample to C2 as stated: for a format outside the implemented
set, `repurpose_content` does not fail — it returns the fixed sentinel
string as an ordinary result (while still issuing no Model Backend
call). -/
theorem placeholder_format_returns_sentinel_ce :
    repurposeContent envBlank "hello" "LinkedIn Post (Coming Soon)" {} =
      ([], Except.ok invalidOptionMessage) := by rfl

/-- C2 (amended): for every format identifier outside the implemented
set no Model Backend call is ever issued; `repurpose_content` returns
the fixed sentinel string as an ordinary result, and the two coming-soon
placeholders are additionally intercepted by the handler with an
informational message before `repurpose_content` runs. -/
theorem unsupported_format_no_backend_call (env : Env)
    (content option : String) (kw params : Kwargs)
    (h1 : option ≠ "Blog Post") (h2 : option ≠ "Tweet Thread")
    (h3 : option ≠ "Instagram Carousel") :
    repurposeContent env content option kw =
      ([], Except.ok invalidOptionMessage) ∧
    (pyStrip content ≠ "" → option ∈ comingSoonOptions →
      generateButtonHandler env content option params =
        ([], HandlerOutcome.comingSoonInfo)) := by
  constructor
  · simp [repurposeContent, h1, h2, h3]
  · intro hc hm
    simp [generateButtonHandler, hc, hm]

/-- Witness for the amended C2: a coming-soon placeholder format. -/
theorem unsupported_format_no_backend_call_witness :
    repurposeContent envBlank "hello" "Email Newsletter (Coming Soon)" {} =
      ([], Except.ok invalidOptionMessage) ∧
    generateButtonHandler envBlank "hello" "Email Newsletter (Coming Soon)" {} =
      ([], HandlerOutcome.comingSoonInfo) :=
  ⟨(unsupported_format_no_backend_call envBlank "hello"
      "Email Newsletter (Coming Soon)" {} {} (by decide) (by decide)
      (by decide)).1,
   (unsupported_format_no_backend_call envBlank "hello"
      "Email Newsletter (Coming Soon)" {} {} (by decide) (by decide)
      (by decide)).2 (by decide) (by decide)⟩

set_option maxRecDepth 4000 in
/-- Counterexample to C3 as stated: a deserialized entry of 281
characters is not rejected — pydantic validates it (the 280-character
bound lives only in a field description) and `repurpose_content`
returns it unchanged. -/
theorem overlong_tweet_accepted_ce :
    280 < longTweet.length ∧
    decodeTweetOutput (Json.obj [("tweets", Json.arr [Json.str longTweet])]) =
      Except.ok ⟨[longTweet]⟩ ∧
    (repurposeContent envLongTweet "hi" "Tweet Thread" {}).2 =
      Except.ok longTweet := by
  refine ⟨by decide, rfl, rfl⟩

/-- C3 (amended): for the TweetThread format the parse step fails when
the response cannot be deserialized against the declared schema — no
JSON found in the text, or the required tweets field missing — but an
entry exceeding 280 characters is NOT rejected: the deserialized list is
returned exactly as received, with no truncation, repair or partial
list. -/
theorem tweet_validation_amended (jsonOf : String → Option Json)
    (text : String) (fields : List (String × Json)) (ts : List String)
    (hnone : jsonOf text = none)
    (hmissing : fields.lookup "tweets" = none) :
    (∃ e, parseTweetOutput jsonOf text = Except.error e) ∧
    (∃ e, decodeTweetOutput (Json.obj fields) = Except.error e) ∧
    decodeTweetOutput (Json.obj [("tweets", Json.arr (ts.map Json.str))]) =
      Except.ok ⟨ts⟩ := by
  refine ⟨⟨"output parser exception: invalid json", ?_⟩,
    ⟨"validation error: field tweets is required", ?_⟩,
    decodeTweetOutput_strings ts⟩
  · simp [parseTweetOutput, hnone]
  · simp [decodeTweetOutput, hmissing]

/-- Witness for the amended C3: a text with no JSON, an object missing
the tweets field, and a well-formed two-entry list. -/
theorem tweet_validation_amended_witness :
    (∃ e, parseTweetOutput (fun _ => none) "no json here" = Except.error e) ∧
    (∃ e, decodeTweetOutput (Json.obj [("other", Json.null)]) =
      Except.error e) ∧
    decodeTweetOutput (Json.obj
        [("tweets", Json.arr [Json.str "a", Json.str "b"])]) =
      Except.ok ⟨["a", "b"]⟩ :=
  tweet_validation_amended (fun _ => none) "no json here"
    [("other", Json.null)] ["a", "b"] rfl rfl

/-- Counterexample to C8 as stated: the tweet template string references
the placeholder format_instructions, which does not appear in its
declared input_variables list. -/
theorem tweet_template_undeclared_placeholder_ce :
    "format_instructions" ∈ templateVars tweetTemplate ∧
    "format_instructions" ∉ tweetInputVariables := by decide

/-- C8 (amended): the blog and carousel templates declare exactly the
placeholders of their template strings; the tweet template declares
exactly its placeholders minus the format_instructions variable, which
is bound by partial application before the chain is built. -/
theorem template_vars_match_amended :
    (templateVars blogTemplate).Perm blogInputVariables ∧
    (templateVars carouselTemplate).Perm carouselInputVariables ∧
    (templateVars tweetTemplate).Perm
      (tweetInputVariables ++ tweetPartialVariables) := by decide

/-- Every error message the parse step can produce. -/
def tweetErrorMessages : List String :=
  ["output parser exception: invalid json",
   "validation error: tweets entries must be strings",
   "validation error: tweets must be a list",
   "validation error: field tweets is required",
   "validation error: expected a JSON object"]

lemma decodeTweetOutput_error_mem (j : Json) (e : String)
    (h : decodeTweetOutput j = Except.error e) : e ∈ tweetErrorMessages := by
  unfold decodeTweetOutput at h
  repeat' split at h
  all_goals simp_all [tweetErrorMessages]

lemma parseTweetOutput_error_mem (jsonOf : String → Option Json)
    (t e : String) (h : parseTweetOutput jsonOf t = Except.error e) :
    e ∈ tweetErrorMessages := by
  unfold parseTweetOutput at h
  split at h
  · simp_all [tweetErrorMessages]
  · exact decodeTweetOutput_error_mem _ _ h

lemma repurposeContent_error_mem (env : Env) (content option : String)
    (kw : Kwargs) (e : String)
    (h : (repurposeContent env content option kw).2 = Except.error e) :
    e ∈ tweetErrorMessages := by
  unfold repurposeContent at h
  split at h
  · simp at h
  · split at h
    · unfold tweetBranchResult at h
      simp only [] at h
      split at h
      · simp at h
      · rename_i e2 heq
        simp only [Except.error.injEq] at h
        subst h
        exact parseTweetOutput_error_mem _ _ _ heq
    · split at h
      · simp at h
      · simp at h

/-- C9: when the API credential is absent from the process environment
(and no explicit override is given), constructing the service fails at
construction time with the missing-credential error; per-request
operations never produce that error — every error `repurpose_content`
can return is distinct from it. -/
theorem missing_credential_at_construction (k : String) (env : Env)
    (content option : String) (kw : Kwargs) (e : String)
    (hk : k ≠ "")
    (he : (repurposeContent env content option kw).2 = Except.error e) :
    repurposerInit none = Except.error missingKeyMessage ∧
    repurposerInit (some "") = Except.error missingKeyMessage ∧
    repurposerInit (some k) = Except.ok () ∧
    e ≠ missingKeyMessage := by
  refine ⟨rfl, rfl, by simp [repurposerInit, hk], ?_⟩
  have hmem := repurposeContent_error_mem env content option kw e he
  intro hcontra
  subst hcontra
  simp [tweetErrorMessages, missingKeyMessage] at hmem

/-- Witness for C9: a concrete key and a concrete failing request. -/
theorem missing_credential_at_construction_witness :
    repurposerInit none = Except.error missingKeyMessage ∧
    repurposerInit (some "test-key") = Except.ok () ∧
    "output parser exception: invalid json" ≠ missingKeyMessage :=
  have h := missing_credential_at_construction "test-key" envBlank "x"
    "Tweet Thread" {} "output parser exception: invalid json" (by decide) rfl
  ⟨h.1, h.2.2.1, h.2.2.2⟩

end ContentRepurposer
